import Mathlib

/-!
Verification of the Denon AVR plugin core (`src/denon/__init__.py`):
a shallow embedding of its codec, frame parser, request/command paths and
background receive loop, with theorems about the spec claims.

Conventions of the embedding:
* Python `float` values in this program are always exact multiples of 0.5
  (volumes) and are modelled as `ℚ`.
* Python operations that can raise are modelled with `Option`/`Except`;
  `none`/`.error` marks the raise.
* Python `dict` values are modelled as ordered association lists with
  replace-on-insert semantics (`dinsert`), matching dict assignment.
-/

namespace Denon

/-- Splitting a character list at every occurrence of a separator, keeping
empty pieces — the behaviour of Python `str.split` with an explicit
single-character separator. -/
def splitCharAux (sep : Char) : List Char → List (List Char)
  | [] => [[]]
  | c :: rest =>
    let r := splitCharAux sep rest
    if c = sep then [] :: r
    else match r with
      | [] => [[c]]
      | h :: t => (c :: h) :: t

/-- Python `s.split(sep)` for a one-character separator. -/
def pySplit (sep : Char) (s : String) : List String :=
  (splitCharAux sep s.data).map (fun l => String.mk l)

/-- Python `s.startswith(pre)`. -/
def pyStartswith (s pre : String) : Bool :=
  s.data.take pre.data.length == pre.data

/-- Last element of a list with a default — Python `l[-1]` on the never-empty
result of `split`. -/
def lastD : List String → String → String
  | [], d => d
  | [x], _ => x
  | _ :: xs, d => lastD xs d

/-- Python `s.lower()`. -/
def lowerStr (s : String) : String := String.mk (s.data.map Char.toLower)

/-- Python `len(s)`. -/
def strLen (s : String) : ℕ := s.data.length

/-- Python slicing `s[:n]`. -/
def strTake (s : String) (n : ℕ) : String := String.mk (s.data.take n)

/-- Python slicing `s[n:]`. -/
def strDrop (s : String) (n : ℕ) : String := String.mk (s.data.drop n)

/-- Python `int()` truncation of a rational toward zero. -/
def intTrunc (q : ℚ) : ℤ :=
  if 0 ≤ q then Int.floor q else -Int.floor (-q)

/-- Python 3 `round()` on a rational: round half to even (banker's rounding). -/
def pyRound (q : ℚ) : ℤ :=
  let f := Int.floor q
  let r := q - (f : ℚ)
  if r < 1/2 then f
  else if 1/2 < r then f + 1
  else if Even f then f else f + 1

/-- Value of a decimal digit character. -/
def digitVal (c : Char) : ℕ := c.toNat - 48

/-- Whether a string is a non-empty run of decimal digits. -/
def isDigitStr (s : String) : Bool :=
  decide (0 < strLen s) && s.data.all Char.isDigit

/-- Python `float(s)` restricted to the unsigned integer literals this protocol
uses: on a non-empty digit string it yields the spelled number, on anything
else the model returns `none` (the only strings the device emits here are
digit runs, so the wider `float` grammar is never exercised). -/
def pyFloat? (s : String) : Option ℚ :=
  if isDigitStr s then
    some ((s.data.foldl (fun a c => 10 * a + digitVal c) 0 : ℕ) : ℚ)
  else none

/-- `mv_to_avr` from the source: the fractional part is rounded to the nearest
0.5; if the rounded fraction is 0 the integer part is emitted as a string;
otherwise the source executes `str(int(mv_val) + '5')`, an `int + str`
concatenation that raises `TypeError`, modelled as `none`. -/
def mv_to_avr (mv_val : ℚ) : Option String :=
  let dec := mv_val - (intTrunc mv_val : ℚ)
  let dec : ℚ := (pyRound (dec * 2) : ℚ) / 2
  if dec = 0 then some (toString (intTrunc mv_val))
  else none

/-- `mv_from_avr` from the source: a two-character wire value is parsed as a
whole number; any other length takes the first two characters as an integer
and adds 0.5. A failing `float()` conversion (`ValueError`) is `none`. -/
def mv_from_avr (mv_val : String) : Option ℚ :=
  if strLen mv_val = 2 then pyFloat? mv_val
  else (pyFloat? (strTake mv_val 2)).map (· + 1/2)

/-- The `_si_map` dictionary from the source, as its literal entry list. -/
def si_pairs : List (String × String) :=
  [("MPLAY", "Media Player"), ("Media Player", "MPLAY"),
   ("SAT/CBL", "Satellite/Cable"), ("Satellite/Cable", "SAT/CBL"),
   ("GAME", "Game"), ("Game", "GAME"),
   ("BD", "Blu-ray Player"), ("Blu-ray Player", "BD"),
   ("PHONO", "Phonograph"), ("Phonograph", "PHONO"),
   ("TV", "TV"), ("DVD", "DVD"), ("CD", "CD"), ("DVR", "DVR")]

/-- Lookup in `_si_map` (`none` models the `KeyError`). -/
def si_map (k : String) : Option String :=
  (si_pairs.find? (fun p => p.1 == k)).map (·.2)

/-- The logical input-source names accepted by the encode direction. -/
def inputVocab : List String :=
  ["Media Player", "Satellite/Cable", "Game", "Blu-ray Player",
   "Phonograph", "TV", "DVD", "CD", "DVR"]

/-- The device-side input codes accepted by the decode direction. -/
def inputCodes : List String :=
  ["MPLAY", "SAT/CBL", "GAME", "BD", "PHONO", "TV", "DVD", "CD", "DVR"]

/-- Modelled from the spec: `SmartPlugin.to_bool` of the host framework
(`lib.model.smartplugin`, not under `src/`) — a strict boolean parse that
recognises the usual truthy and falsy tokens case-insensitively and raises
(`none`) on anything else. -/
def to_bool_strict (s : String) : Option Bool :=
  let t := lowerStr s
  if t ∈ ["1", "true", "yes", "y", "on"] then some true
  else if t ∈ ["0", "false", "no", "n", "off", ""] then some false
  else none

/-- Modelled from the spec: `SmartPlugin.to_bool` with a `default` argument —
the permissive variant returning the default on an unrecognised token. -/
def to_bool_default (s : String) (d : Bool) : Bool :=
  (to_bool_strict s).getD d

/-- A decoded attribute value: the three Python types occurring as item
values in this plugin (`bool`, `str`, `num`). -/
inductive DVal where
  | b (x : Bool)
  | s (x : String)
  | q (x : ℚ)
deriving DecidableEq

/-- Python truthiness of a `DVal` (`if item():` in the source). -/
def DVal.truthy : DVal → Bool
  | .b x => x
  | .s x => x ≠ ""
  | .q x => x ≠ 0

/-- The `cmd` field of `_cmd_dict`: logical attribute name to wire code. -/
def cmdOf (attr : String) : Option String :=
  if attr = "power" then some "PW"
  else if attr = "input" then some "SI"
  else if attr = "volume" then some "MV"
  else if attr = "mute" then some "MU"
  else none

/-- The `_inv_cmd_dict` reverse dictionary: wire code to attribute name. -/
def inv_cmd (c : String) : Option String :=
  if c = "PW" then some "power"
  else if c = "SI" then some "input"
  else if c = "MV" then some "volume"
  else if c = "MU" then some "mute"
  else none

/-- The `from_avr` decoder of `_cmd_dict` for each attribute; `none` models a
raised exception (`KeyError` of `_si_map`, `ValueError` of `float`/`to_bool`). -/
def from_avr (attr : String) (v : String) : Option DVal :=
  if attr = "power" then some (.b (to_bool_default v false))
  else if attr = "input" then (si_map v).map .s
  else if attr = "volume" then (mv_from_avr v).map .q
  else if attr = "mute" then (to_bool_strict v).map .b
  else none

/-- Python `d[k] = v` on an ordered association list: replace the value in
place when the key is present, append otherwise. -/
def dinsert (k : String) (v : DVal) : List (String × DVal) → List (String × DVal)
  | [] => [(k, v)]
  | (k1, v1) :: rest =>
    if k1 = k then (k1, v) :: rest else (k1, v1) :: dinsert k v rest

/-- Python `k in d` / `d[k]` on an ordered association list. -/
def dlookup (k : String) : List (String × DVal) → Option DVal
  | [] => none
  | (k1, v1) :: rest => if k1 = k then some v1 else dlookup k rest

/-- Python `del d[k]` on an ordered association list. -/
def ddelete (k : String) : List (String × DVal) → List (String × DVal)
  | [] => []
  | (k1, v1) :: rest => if k1 = k then rest else (k1, v1) :: ddelete k rest

/-- The state `_parse_response` reads and writes: the response dictionary it
builds and the session's `max_volume` attribute. -/
structure ParseState where
  respDict : List (String × DVal)
  maxVolume : ℚ
deriving DecidableEq

/-- One iteration of the frame loop in `_parse_response`. A frame starting
with `MVMAX` only updates `max_volume` from its last space-separated token; any
other frame is split into a two-character wire code and a value, decoded when
the code is known and silently ignored otherwise. An exception raised by a
decoder aborts the parse; the `.error` value carries the `max_volume` already
stored at that point (the attribute assignment is a side effect that has
already happened when the exception propagates). -/
def parseFrame (st : ParseState) (elem : String) : Except ℚ ParseState :=
  if pyStartswith elem "MVMAX" then
    match mv_from_avr (lastD (pySplit ' ' elem) "") with
    | some q => .ok ⟨st.respDict, q⟩
    | none => .error st.maxVolume
  else
    let cmd := strTake elem 2
    let value := strDrop elem 2
    match inv_cmd cmd with
    | none => .ok st
    | some attr =>
      match from_avr attr value with
      | some dv => .ok ⟨dinsert attr dv st.respDict, st.maxVolume⟩
      | none => .error st.maxVolume

/-- The frame loop of `_parse_response` over a list of frames. -/
def parseFrames (frames : List String) (st : ParseState) : Except ℚ ParseState :=
  match frames with
  | [] => .ok st
  | f :: rest => (parseFrame st f).bind (parseFrames rest)

/-- `_parse_response` from the source: split the chunk on carriage returns,
drop empty frames, and run the frame loop starting from an empty response
dictionary and the current `max_volume`. -/
def parse_response (chunk : String) (maxVol : ℚ) : Except ℚ ParseState :=
  parseFrames ((pySplit '\r' chunk).filter (fun e => e ≠ "")) ⟨[], maxVol⟩

/-- How a call to `request_info` ends: the early return after a short write,
the `BlockingIOError` path (`None` returned after logging), a decoder
exception propagating out of `_parse_response`, or the parsed response
dictionary returned to the caller. -/
inductive ReqOutcome where
  | keyError
  | sendError
  | noResponse
  | parseExc
  | ok (d : List (String × DVal))
deriving DecidableEq

/-- Everything observable about one `request_info` call: its outcome, whether
`recv_lock` is still held when control leaves the method, the total time slept
(seconds), and the session's `max_volume` afterwards. -/
structure ReqResult where
  outcome : ReqOutcome
  lockHeldOnExit : Bool
  waited : ℚ
  maxVolume : ℚ
deriving DecidableEq

/-- `request_info` from the source. Inputs model the environment: `sendOk` is
whether `sock.send` accepted the whole request, `recvData` is the chunk
`sock.recv` returns (`none` when the non-blocking read raises
`BlockingIOError`), `maxVol` the session's `max_volume` on entry.

The control flow, traced from the source: the `_cmd_dict` lookup (a
`KeyError` for an unknown attribute happens before the lock is taken); then
`recv_lock.acquire()`; then the send — a short write is reported and the
method returns at once, *before* the `try`/`finally` block, so the lock stays
held; otherwise `time.sleep(0.2)`, one `recv`, `_parse_response`, and an empty
dictionary is turned into the `BlockingIOError` case; the `finally` clause
releases the lock on all of these later paths. -/
def request_info (attr : String) (sendOk : Bool) (recvData : Option String)
    (maxVol : ℚ) : ReqResult :=
  match cmdOf attr with
  | none => ⟨.keyError, false, 0, maxVol⟩
  | some _ =>
    if ¬sendOk then ⟨.sendError, true, 0, maxVol⟩
    else
      match recvData with
      | none => ⟨.noResponse, false, 1/5, maxVol⟩
      | some s =>
        match parse_response s maxVol with
        | .error m => ⟨.parseExc, false, 1/5, m⟩
        | .ok st =>
          if st.respDict = [] then ⟨.noResponse, false, 1/5, st.maxVolume⟩
          else ⟨.ok st.respDict, false, 1/5, st.maxVolume⟩

/-- Everything observable about the part of `update_item_callback` that
follows `send_command`: the final `success` flag, the item's value when the
method returns, the rollback write if one happened (value written, caller
string), the response pairs forwarded to `_update_items_from_response_dict`,
how many further commands were sent (the method body sends none after the
first), and the time slept. -/
structure AckResult where
  success : Bool
  itemValue : DVal
  revert : Option (DVal × String)
  forwarded : List (String × DVal)
  resends : ℕ
  waited : ℚ
deriving DecidableEq

/-- The acknowledgement phase of `update_item_callback`, from the source,
starting right after `send_command` returned `sendOk`. `attrib` is the
`denon_avr_attribute`, `v` the item's current value (`item()`), `pv` its
previous value (`item.prev_value()`), `recvData` what `sock.recv` returns.

Traced from the source: sleep 1.0 s when the attribute is power and the value
truthy, else 0.2 s; a `BlockingIOError` from `recv`, a missing pair for
`attrib`, or a decoded value different from `v` all set `success = False`,
after which the item is reset to its previous value with caller `DenonAVR`;
on a matching acknowledgement the pair is deleted and the remaining pairs are
forwarded (but `success` keeps the value `send_command` returned). A decoder
exception out of `_parse_response` is not caught (`none`): no rollback runs
and `recv_lock.release()` is skipped. -/
def update_item_ack (attrib : String) (v pv : DVal) (sendOk : Bool)
    (recvData : Option String) (maxVol : ℚ) : Option AckResult :=
  let waited : ℚ := if attrib = "power" ∧ v.truthy then 1 else 1/5
  match recvData with
  | none => some ⟨false, pv, some (pv, "DenonAVR"), [], 0, waited⟩
  | some s =>
    match parse_response s maxVol with
    | .error _ => none
    | .ok st =>
      if dlookup attrib st.respDict ≠ some v then
        some ⟨false, pv, some (pv, "DenonAVR"), [], 0, waited⟩
      else
        let rest := ddelete attrib st.respDict
        if sendOk then some ⟨true, v, none, rest, 0, waited⟩
        else some ⟨false, pv, some (pv, "DenonAVR"), rest, 0, waited⟩

/-- How one iteration of the background receive loop ends. -/
inductive RecvIterOutcome where
  | idle
  | attributeError
deriving DecidableEq

/-- Everything observable about one `_recv_loop` iteration: how it ended, the
pairs forwarded to the items, and whether the lock was released. -/
structure RecvIterResult where
  outcome : RecvIterOutcome
  forwarded : List (String × DVal)
  lockReleased : Bool
deriving DecidableEq

/-- One iteration of `_recv_loop`, from the source. When `recv` raises
`BlockingIOError` (`recvData = none`) the `except` clause absorbs it and the
loop continues. When `recv` returns a chunk, the body calls
`self._parse_reponse(...)` — a method that does not exist anywhere in the
class (the parser is spelled `_parse_response`), so Python raises
`AttributeError` before any parsing happens; the `except BlockingIOError`
clause does not catch it, nothing is forwarded, and the exception terminates
the receive thread. The `finally` clause releases the lock in both cases. -/
def recv_loop_iter (recvData : Option String) : RecvIterResult :=
  match recvData with
  | none => ⟨.idle, [], true⟩
  | some _ => ⟨.attributeError, [], true⟩

/-- The decoded pair a single frame contributes for attribute `a`, if any:
`none` for the volume-ceiling frame, for an unknown wire code, for a frame of
a different attribute, and for a failing decoder. -/
def decodeOf (a e : String) : Option DVal :=
  if pyStartswith e "MVMAX" then none
  else match inv_cmd (strTake e 2) with
    | some a1 => if a1 = a then from_avr a (strDrop e 2) else none
    | none => none

/-- First-of-two choice on optional values. -/
def oElse (x y : Option DVal) : Option DVal :=
  match x with
  | some v => some v
  | none => y

/-- The value of the last frame in the list that decodes for attribute `a`
(later frames take precedence). -/
def lastDecoded (a : String) : List String → Option DVal
  | [] => none
  | f :: rest => oElse (lastDecoded a rest) (decodeOf a f)

lemma oElse_none (x : Option DVal) : oElse x none = x := by
  cases x <;> rfl

lemma oElse_assoc (x y z : Option DVal) :
    oElse x (oElse y z) = oElse (oElse x y) z := by
  cases x <;> rfl

lemma mv_to_avr_half : mv_to_avr (91/2) = none := by
  norm_num [mv_to_avr, intTrunc, pyRound]

lemma intTrunc_45 : intTrunc 45 = 45 := by
  norm_num [intTrunc]

lemma mv_to_avr_whole : mv_to_avr 45 = some "45" := by
  rw [mv_to_avr, intTrunc_45]
  norm_num [pyRound]
  decide

lemma dlookup_dinsert_self (k : String) (v : DVal) (l : List (String × DVal)) :
    dlookup k (dinsert k v l) = some v := by
  induction l with
  | nil => simp [dinsert, dlookup]
  | cons p rest ih =>
    obtain ⟨k1, v1⟩ := p
    by_cases h : k1 = k <;> simp [dinsert, dlookup, h, ih]

lemma dinsert_cons_pos (k k1 : String) (v v1 : DVal)
    (l : List (String × DVal)) (h : k1 = k) :
    dinsert k v ((k1, v1) :: l) = (k1, v) :: l := by
  simp only [dinsert, if_pos h]

lemma dinsert_cons_neg (k k1 : String) (v v1 : DVal)
    (l : List (String × DVal)) (h : ¬k1 = k) :
    dinsert k v ((k1, v1) :: l) = (k1, v1) :: dinsert k v l := by
  simp only [dinsert, if_neg h]

lemma dlookup_cons_pos (k k1 : String) (v1 : DVal)
    (l : List (String × DVal)) (h : k1 = k) :
    dlookup k ((k1, v1) :: l) = some v1 := by
  simp only [dlookup, if_pos h]

lemma dlookup_cons_neg (k k1 : String) (v1 : DVal)
    (l : List (String × DVal)) (h : ¬k1 = k) :
    dlookup k ((k1, v1) :: l) = dlookup k l := by
  simp only [dlookup, if_neg h]

lemma dlookup_dinsert_other (k k1 : String) (v : DVal)
    (l : List (String × DVal)) (h : k1 ≠ k) :
    dlookup k (dinsert k1 v l) = dlookup k l := by
  induction l with
  | nil =>
    simp only [dinsert]
    exact dlookup_cons_neg k k1 v [] h
  | cons p rest ih =>
    obtain ⟨k2, v2⟩ := p
    by_cases h2 : k2 = k1
    · rw [dinsert_cons_pos k1 k2 v v2 rest h2]
      by_cases h3 : k2 = k
      · exact absurd (h2.symm.trans h3) h
      · rw [dlookup_cons_neg k k2 v rest h3, dlookup_cons_neg k k2 v2 rest h3]
    · rw [dinsert_cons_neg k1 k2 v v2 rest h2]
      by_cases h3 : k2 = k
      · rw [dlookup_cons_pos k k2 v2 _ h3, dlookup_cons_pos k k2 v2 rest h3]
      · rw [dlookup_cons_neg k k2 v2 _ h3, dlookup_cons_neg k k2 v2 rest h3, ih]

lemma mem_keys_dinsert (k k1 : String) (v : DVal) (l : List (String × DVal)) :
    k1 ∈ (dinsert k v l).map Prod.fst ↔ k1 = k ∨ k1 ∈ l.map Prod.fst := by
  induction l with
  | nil => simp [dinsert]
  | cons p rest ih =>
    obtain ⟨k2, v2⟩ := p
    by_cases h2 : k2 = k
    · rw [dinsert_cons_pos k k2 v v2 rest h2]
      subst h2
      simp only [List.map_cons, List.mem_cons]
      tauto
    · rw [dinsert_cons_neg k k2 v v2 rest h2]
      simp only [List.map_cons, List.mem_cons, ih]
      tauto

lemma keys_dinsert_nodup (k : String) (v : DVal) (l : List (String × DVal))
    (h : (l.map Prod.fst).Nodup) : ((dinsert k v l).map Prod.fst).Nodup := by
  induction l with
  | nil => simp [dinsert]
  | cons p rest ih =>
    obtain ⟨k1, v1⟩ := p
    simp only [List.map_cons, List.nodup_cons] at h
    by_cases h1 : k1 = k
    · rw [dinsert_cons_pos k k1 v v1 rest h1]
      simp only [List.map_cons, List.nodup_cons]
      exact ⟨h.1, h.2⟩
    · rw [dinsert_cons_neg k k1 v v1 rest h1]
      simp only [List.map_cons, List.nodup_cons]
      refine ⟨?_, ih h.2⟩
      rw [mem_keys_dinsert]
      rintro (h3 | h3)
      · exact h1 h3
      · exact h.1 h3

lemma parseFrame_dlookup (st st1 : ParseState) (f : String)
    (h : parseFrame st f = .ok st1) (a : String) :
    dlookup a st1.respDict = oElse (decodeOf a f) (dlookup a st.respDict) := by
  rw [parseFrame] at h
  by_cases hmv : pyStartswith f "MVMAX"
  · rw [if_pos hmv] at h
    cases hq : mv_from_avr (lastD (pySplit ' ' f) "") with
    | none => rw [hq] at h; exact absurd h (by simp)
    | some q =>
      rw [hq] at h
      cases h
      simp [decodeOf, hmv, oElse]
  · rw [if_neg hmv] at h
    simp only [] at h
    cases hc : inv_cmd (strTake f 2) with
    | none =>
      rw [hc] at h
      cases h
      simp [decodeOf, hmv, hc, oElse]
    | some attr =>
      rw [hc] at h
      simp only [] at h
      cases hv : from_avr attr (strDrop f 2) with
      | none => rw [hv] at h; exact absurd h (by simp)
      | some dv =>
        rw [hv] at h
        cases h
        by_cases ha : attr = a
        · subst ha
          simp [decodeOf, hmv, hc, hv, oElse, dlookup_dinsert_self]
        · simp [decodeOf, hmv, hc, ha, oElse, dlookup_dinsert_other a attr dv _ ha]

lemma parseFrames_dlookup (frames : List String) (st st1 : ParseState)
    (h : parseFrames frames st = .ok st1) (a : String) :
    dlookup a st1.respDict = oElse (lastDecoded a frames) (dlookup a st.respDict) := by
  induction frames generalizing st with
  | nil =>
    rw [parseFrames] at h
    cases h
    simp [lastDecoded, oElse]
  | cons f rest ih =>
    rw [parseFrames] at h
    cases hf : parseFrame st f with
    | error e => rw [hf] at h; exact absurd h (by simp [Except.bind])
    | ok st2 =>
      rw [hf] at h
      simp only [Except.bind] at h
      rw [ih st2 h, parseFrame_dlookup st st2 f hf a, lastDecoded, oElse_assoc]

lemma parseFrame_nodup (st st1 : ParseState) (f : String)
    (h : parseFrame st f = .ok st1)
    (hn : (st.respDict.map Prod.fst).Nodup) :
    (st1.respDict.map Prod.fst).Nodup := by
  rw [parseFrame] at h
  by_cases hmv : pyStartswith f "MVMAX"
  · rw [if_pos hmv] at h
    cases hq : mv_from_avr (lastD (pySplit ' ' f) "") with
    | none => rw [hq] at h; exact absurd h (by simp)
    | some q => rw [hq] at h; cases h; exact hn
  · rw [if_neg hmv] at h
    simp only [] at h
    cases hc : inv_cmd (strTake f 2) with
    | none => rw [hc] at h; cases h; exact hn
    | some attr =>
      rw [hc] at h
      simp only [] at h
      cases hv : from_avr attr (strDrop f 2) with
      | none => rw [hv] at h; exact absurd h (by simp)
      | some dv => rw [hv] at h; cases h; exact keys_dinsert_nodup attr dv _ hn

lemma parseFrames_nodup (frames : List String) (st st1 : ParseState)
    (h : parseFrames frames st = .ok st1)
    (hn : (st.respDict.map Prod.fst).Nodup) :
    (st1.respDict.map Prod.fst).Nodup := by
  induction frames generalizing st with
  | nil => rw [parseFrames] at h; cases h; exact hn
  | cons f rest ih =>
    rw [parseFrames] at h
    cases hf : parseFrame st f with
    | error e => rw [hf] at h; exact absurd h (by simp [Except.bind])
    | ok st2 =>
      rw [hf] at h
      simp only [Except.bind] at h
      exact ih st2 h (parseFrame_nodup st st2 f hf hn)

/-- C1: the claim that every receive-loop iteration with data parses the chunk
and forwards every decoded pair fails on the code: the loop body calls the
non-existent method `_parse_reponse`, so an iteration whose read returns data
raises `AttributeError` and forwards nothing, while an iteration whose read
finds no data is absorbed as the idle case (lock released either way). -/
theorem recv_loop_data_never_forwarded :
    (∀ s : String, recv_loop_iter (some s) =
      ⟨RecvIterOutcome.attributeError, [], true⟩) ∧
    recv_loop_iter none = ⟨RecvIterOutcome.idle, [], true⟩ :=
  ⟨fun _ => rfl, rfl⟩

/-- C2: the claim that `request_info` releases the stream lock on every exit
path fails on the code: when the send is short the method returns before
entering the `try`/`finally` block and `recv_lock` stays held, whereas on all
paths with a complete send the lock is released. -/
theorem request_info_lock_on_exit (attr : String) (rd : Option String) (mv : ℚ)
    (h : (cmdOf attr).isSome = true) :
    (request_info attr false rd mv).lockHeldOnExit = true ∧
    (request_info attr true rd mv).lockHeldOnExit = false := by
  obtain ⟨c, hc⟩ := Option.isSome_iff_exists.mp h
  constructor
  · rw [request_info.eq_def, hc]
    simp
  · rw [request_info.eq_def, hc]
    simp only [not_true, if_neg (by simp : ¬¬(true = true))]
    cases rd with
    | none => rfl
    | some s =>
      simp only []
      cases hp : parse_response s mv with
      | error m => rfl
      | ok st =>
        by_cases he : st.respDict = [] <;> simp [he]

theorem request_info_lock_on_exit_witness :
    (cmdOf "power").isSome = true ∧
    ((request_info "power" false none 99).lockHeldOnExit = true ∧
     (request_info "power" true none 99).lockHeldOnExit = false) :=
  ⟨rfl, request_info_lock_on_exit "power" none 99 rfl⟩

/-- C3: the claim that `mv_to_avr` returns a string for every value whose
rounded fraction is non-zero fails on the code: at 45.5 the rounded fraction
is 0.5 and the source executes `str(int(mv_val) + '5')`, an `int + str`
addition that raises `TypeError` (modelled as `none`); a value with rounded
fraction 0 such as 45 does produce its integer part as a string. -/
theorem mv_to_avr_typeerror_on_half_step :
    mv_to_avr (91/2) = none ∧ mv_to_avr 45 = some "45" :=
  ⟨mv_to_avr_half, mv_to_avr_whole⟩

/-- C4: the claim that decode ∘ encode is the identity on all multiples of
0.5 in the supported range fails on the code: at 45.5 the encoder raises
`TypeError` (`str(int(mv_val) + '5')`), so the round trip never produces
45.5, while at the whole number 45 the round trip does return 45. -/
theorem mv_roundtrip_broken_at_half_step :
    (mv_to_avr (91/2)).bind mv_from_avr = none ∧
    (mv_to_avr 45).bind mv_from_avr = some 45 := by
  constructor
  · rw [mv_to_avr_half]
    rfl
  · rw [mv_to_avr_whole]
    rfl

/-- C5 (counterexample): `request_info` does not report the error result
whenever no parsed frame corresponds to the requested attribute — requesting
`power` while the read contains only `MUON\r` returns the parsed dictionary
(which has no `power` entry) rather than the no-response result, and it
returns that whole dictionary, not a decoded value for `power`. -/
theorem request_info_power_gets_mute_dict :
    (request_info "power" true (some "MUON\r") 99).outcome =
      ReqOutcome.ok [("mute", DVal.b true)] ∧
    dlookup "power" [("mute", DVal.b true)] = none :=
  ⟨rfl, rfl⟩

/-- C5 (amended): after a complete send, `request_info` sleeps the 200 ms
settle interval, performs one read, parses it, and returns the full mapping
of decoded pairs from that read; it reports the no-response error exactly
when the read yields no data or the parse decodes no known frame (the parsed
dictionary is empty), and a decoder exception propagates as such. -/
theorem request_info_returns_full_dict (attr : String) (rd : Option String)
    (mv : ℚ) (h : (cmdOf attr).isSome = true) :
    (request_info attr true rd mv).waited = 1/5 ∧
    (request_info attr true rd mv).outcome =
      (match rd with
       | none => ReqOutcome.noResponse
       | some s =>
         match parse_response s mv with
         | .error _ => ReqOutcome.parseExc
         | .ok st =>
           if st.respDict = [] then ReqOutcome.noResponse
           else ReqOutcome.ok st.respDict) := by
  obtain ⟨c, hc⟩ := Option.isSome_iff_exists.mp h
  rw [request_info.eq_def, hc]
  simp only [not_true, if_neg (by simp : ¬¬(true = true))]
  cases rd with
  | none => exact ⟨rfl, rfl⟩
  | some s =>
    simp only []
    cases hp : parse_response s mv with
    | error m => exact ⟨rfl, rfl⟩
    | ok st =>
      by_cases he : st.respDict = [] <;> simp [he]

theorem request_info_returns_full_dict_witness :
    (cmdOf "power").isSome = true ∧
    ((request_info "power" true (some "PWON\r") 99).waited = 1/5 ∧
     (request_info "power" true (some "PWON\r") 99).outcome =
       (match some "PWON\r" with
        | none => ReqOutcome.noResponse
        | some s =>
          match parse_response s 99 with
          | .error _ => ReqOutcome.parseExc
          | .ok st =>
            if st.respDict = [] then ReqOutcome.noResponse
            else ReqOutcome.ok st.respDict)) :=
  ⟨rfl, request_info_returns_full_dict "power" (some "PWON\r") 99 rfl⟩

/-- C6: in the acknowledgement phase of `update_item_callback`, when the
parsed ACK read has no pair for the commanded attribute or its decoded value
differs from the commanded value, the item is written back to its previous
value with caller `DenonAVR`, nothing is forwarded, no further command is
sent, and the exchange ends with `success = False`. -/
theorem update_item_ack_rolls_back (attrib : String) (v pv : DVal) (s : String)
    (mv : ℚ) (st : ParseState) (hp : parse_response s mv = .ok st)
    (hmiss : dlookup attrib st.respDict ≠ some v) :
    update_item_ack attrib v pv true (some s) mv =
      some ⟨false, pv, some (pv, "DenonAVR"), [], 0,
            if attrib = "power" ∧ v.truthy then 1 else 1/5⟩ := by
  simp only [update_item_ack, hp]
  rw [if_pos hmiss]

theorem update_item_ack_rolls_back_witness :
    parse_response "MUOFF\r" 99 = .ok ⟨[("mute", DVal.b false)], 99⟩ ∧
    dlookup "mute" [("mute", DVal.b false)] ≠ some (DVal.b true) ∧
    update_item_ack "mute" (DVal.b true) (DVal.b false) true
        (some "MUOFF\r") 99 =
      some ⟨false, DVal.b false, some (DVal.b false, "DenonAVR"), [], 0,
            if "mute" = "power" ∧ (DVal.b true).truthy then 1 else 1/5⟩ :=
  ⟨rfl, by decide,
   update_item_ack_rolls_back "mute" (DVal.b true) (DVal.b false) "MUOFF\r" 99
     ⟨[("mute", DVal.b false)], 99⟩ rfl (by decide)⟩

/-- C7: `mv_from_avr` maps every two-character digit wire value to the whole
number its digits spell, and every three-character digit wire value to the
number spelled by its first two characters plus 0.5. -/
theorem mv_from_avr_two_and_three_chars (c1 c2 c3 : Char)
    (h1 : c1.isDigit = true) (h2 : c2.isDigit = true) (_h3 : c3.isDigit = true) :
    mv_from_avr (String.mk [c1, c2]) =
      some ((10 * (c1.toNat - 48) + (c2.toNat - 48) : ℕ) : ℚ) ∧
    mv_from_avr (String.mk [c1, c2, c3]) =
      some (((10 * (c1.toNat - 48) + (c2.toNat - 48) : ℕ) : ℚ) + 1/2) := by
  have ef : pyFloat? (String.mk [c1, c2]) =
      some ((10 * (c1.toNat - 48) + (c2.toNat - 48) : ℕ) : ℚ) := by
    simp only [pyFloat?, isDigitStr, strLen]
    simp [h1, h2, digitVal, List.foldl]
  have e2 : strLen (String.mk [c1, c2]) = 2 := rfl
  have e3 : ¬strLen (String.mk [c1, c2, c3]) = 2 := by simp [strLen]
  have et : strTake (String.mk [c1, c2, c3]) 2 = String.mk [c1, c2] := rfl
  constructor
  · rw [mv_from_avr, if_pos e2, ef]
  · rw [mv_from_avr, if_neg e3, et, ef]
    rfl

theorem mv_from_avr_two_and_three_chars_witness :
    ('4'.isDigit = true ∧ '5'.isDigit = true) ∧
    mv_from_avr (String.mk ['4', '5']) =
      some ((10 * ('4'.toNat - 48) + ('5'.toNat - 48) : ℕ) : ℚ) ∧
    mv_from_avr (String.mk ['4', '5', '5']) =
      some (((10 * ('4'.toNat - 48) + ('5'.toNat - 48) : ℕ) : ℚ) + 1/2) :=
  ⟨⟨rfl, rfl⟩, mv_from_avr_two_and_three_chars '4' '5' '5' rfl rfl rfl⟩

/-- C8: decoding the encoding of every input-source logical name yields the
name back, and the `_si_map` table is duplicate-free in both directions: the
name-to-code direction and the code-to-name direction are both injective. -/
theorem si_map_roundtrip_and_injective :
    (∀ n ∈ inputVocab, (si_map n).bind si_map = some n) ∧
    (∀ n1 ∈ inputVocab, ∀ n2 ∈ inputVocab, si_map n1 = si_map n2 → n1 = n2) ∧
    (∀ c1 ∈ inputCodes, ∀ c2 ∈ inputCodes, si_map c1 = si_map c2 → c1 = c2) := by
  refine ⟨by decide, ?_, ?_⟩ <;> decide

theorem si_map_roundtrip_witness :
    ("Blu-ray Player" ∈ inputVocab) ∧
    (si_map "Blu-ray Player").bind si_map = some "Blu-ray Player" :=
  ⟨by decide, si_map_roundtrip_and_injective.1 "Blu-ray Player" (by decide)⟩

/-- C9: a frame that begins with the `MVMAX` prefix never contributes a pair
to the response dictionary built by `_parse_response`: its whole effect is to
set `max_volume` to the `mv_from_avr` decoding of its last space-separated
token (a failing decode raises, leaving the dictionary untouched either way). -/
theorem parse_mvmax_only_sets_max_volume (st : ParseState) (e : String)
    (h : pyStartswith e "MVMAX" = true) :
    parseFrame st e =
      (match mv_from_avr (lastD (pySplit ' ' e) "") with
       | some q => Except.ok ⟨st.respDict, q⟩
       | none => Except.error st.maxVolume) := by
  rw [parseFrame, if_pos h]

theorem parse_mvmax_witness :
    pyStartswith "MVMAX 685" "MVMAX" = true ∧
    parseFrame ⟨[], 99⟩ "MVMAX 685" =
      Except.ok ⟨[], ((68 : ℕ) : ℚ) + 1/2⟩ :=
  ⟨rfl, by
    rw [parse_mvmax_only_sets_max_volume ⟨[], 99⟩ "MVMAX 685" rfl]
    exact rfl⟩

/-- C10: `_parse_response` builds a dictionary keyed by attribute name, so a
chunk yields at most one pair per attribute (the key list of the result has
no duplicates), and the entry stored for an attribute is the decoded value of
the last frame of the chunk carrying that attribute's wire code. -/
theorem parse_response_last_frame_wins (chunk : String) (mv : ℚ)
    (st1 : ParseState) (h : parse_response chunk mv = .ok st1) (a : String) :
    dlookup a st1.respDict =
      lastDecoded a ((pySplit '\r' chunk).filter (fun e => e ≠ "")) ∧
    (st1.respDict.map Prod.fst).Nodup := by
  constructor
  · have h2 := parseFrames_dlookup _ _ _ h a
    simpa [dlookup, oElse_none] using h2
  · exact parseFrames_nodup _ _ _ h (by simp)

theorem parse_response_last_frame_wins_witness :
    parse_response "MUON\rMUOFF\r" 99 = .ok ⟨[("mute", DVal.b false)], 99⟩ ∧
    (dlookup "mute" [("mute", DVal.b false)] =
       lastDecoded "mute"
         ((pySplit '\r' "MUON\rMUOFF\r").filter (fun e => e ≠ "")) ∧
     ([("mute", DVal.b false)].map Prod.fst).Nodup) :=
  ⟨rfl, parse_response_last_frame_wins "MUON\rMUOFF\r" 99
    ⟨[("mute", DVal.b false)], 99⟩ rfl "mute"⟩

end Denon
